import Mathlib

/-!
Shallow embedding of `src/app.py` (Dog Product Recommender API), covering the
`/get_recommendation` handler, its request validation, the outbound Groq
chat-completion call it constructs, and the parsing/error routing of the
upstream response.

Modelling conventions:
- Python strings are Lean `String`; `str.strip()` is `pystrip` (removing the
  ASCII whitespace set Python strips; Python additionally strips some Unicode
  whitespace, which no claim depends on).
- JSON values are the inductive `JsonVal`; `json.loads` is the executable
  parser `json_loads` below (objects, arrays, strings with escapes, numbers,
  literals), returning `Except` with a simplified diagnostic string where
  CPython raises `json.JSONDecodeError`.
- Python exception *messages* from library code (`KeyError`, `IndexError`,
  `TypeError`, `requests.HTTPError`) are modelled as fixed strings shaped after
  CPython's; the claims only depend on which exception class is raised and on
  the handler-authored message prefixes, which are reproduced exactly.
- The network is an oracle `Upstream`: what the single `requests.post` call
  would yield (a connection-level failure, or a response with a status code, a
  reason phrase, and a body given as the result of `Response.json()`; a body
  that is not valid JSON is the `.error` case, which modern `requests` raises
  as a `RequestException` subclass).
- The handler's observable behaviour is `HandlerOutput`: the HTTP outcome
  (FastAPI turns a raised `HTTPException` into a response with that status and
  detail), the list of outbound calls made, and the `print` log lines.
-/

/-- The whitespace characters Python `str.strip()` removes (ASCII part). -/
def isPySpace (c : Char) : Bool :=
  c = ' ' || c = '\t' || c = '\n' || c = '\r' || c = '\x0b' || c = '\x0c'

/-- Python `str.strip()`: drop leading and trailing whitespace. -/
def pystrip (s : String) : String :=
  String.mk (((s.data.dropWhile isPySpace).reverse.dropWhile isPySpace).reverse)

/-- Request body model of `RecommendationRequest` (app.py lines 33-36). -/
structure RecommendationRequest where
  dog_breed : String
  diet_preference : String
  product_type : String

/-- A JSON value, as produced by `json.loads`. Numbers are exact rationals. -/
inductive JsonVal where
  | null
  | bool (b : Bool)
  | num (q : Rat)
  | str (s : String)
  | arr (xs : List JsonVal)
  | obj (kvs : List (String × JsonVal))

/-- Python truthiness (`bool(x)`) of a JSON-decoded value: `None`, `False`,
zero, and empty containers/strings are falsy. -/
def pyTruthy : JsonVal → Bool
  | .null => false
  | .bool b => b
  | .num q => q != 0
  | .str s => s != ""
  | .arr xs => !xs.isEmpty
  | .obj kvs => !kvs.isEmpty

/-- Lookup in a JSON object with Python `dict` semantics: `json.loads` keeps
the last occurrence of a duplicated key, so the rightmost binding wins. -/
def lookupLast (kvs : List (String × JsonVal)) (k : String) : Option JsonVal :=
  match kvs with
  | [] => none
  | (k1, v) :: rest =>
    match lookupLast rest k with
    | some v2 => some v2
    | none => if k1 = k then some v else none

/-- JSON whitespace. -/
def isWsChar (c : Char) : Bool :=
  c = ' ' || c = '\t' || c = '\n' || c = '\r'

/-- Drop leading JSON whitespace. -/
def skipWs : List Char → List Char
  | [] => []
  | c :: cs => if isWsChar c then skipWs cs else c :: cs

/-- Split off a maximal run of decimal digits. -/
def spanDigits : List Char → List Char × List Char
  | [] => ([], [])
  | c :: cs =>
    if c.isDigit then
      let (d, r) := spanDigits cs
      (c :: d, r)
    else ([], c :: cs)

/-- Numeric value of a digit run. -/
def digitsVal (ds : List Char) : Nat :=
  ds.foldl (fun a c => a * 10 + (c.toNat - 48)) 0

/-- Value of a hexadecimal digit, if any. -/
def hexDigitVal (c : Char) : Option Nat :=
  if c.isDigit then some (c.toNat - 48)
  else if 'a' ≤ c ∧ c ≤ 'f' then some (c.toNat - 87)
  else if 'A' ≤ c ∧ c ≤ 'F' then some (c.toNat - 55)
  else none

/-- Parse a JSON number starting at the current position (first char is a
digit or a minus sign). Yields an exact rational. -/
def parseNumber (cs : List Char) : Except String (JsonVal × List Char) :=
  let (neg, cs1) := match cs with
    | '-' :: r => (true, r)
    | _ => (false, cs)
  let (ip, cs2) := spanDigits cs1
  if ip.isEmpty then .error "Expecting value"
  else
    let fracRes : Except String (List Char × List Char) := match cs2 with
      | '.' :: r =>
        let (fd, r2) := spanDigits r
        if fd.isEmpty then .error "Expecting digit after decimal point" else .ok (fd, r2)
      | _ => .ok ([], cs2)
    match fracRes with
    | .error e => .error e
    | .ok (fracDs, cs3) =>
      let expRes : Except String (Bool × List Char × List Char) := match cs3 with
        | 'e' :: r | 'E' :: r =>
          let (esign, r1) := match r with
            | '-' :: r2 => (true, r2)
            | '+' :: r2 => (false, r2)
            | _ => (false, r)
          let (ed, r3) := spanDigits r1
          if ed.isEmpty then .error "Expecting digit in exponent" else .ok (esign, ed, r3)
        | _ => .ok (false, [], cs3)
      match expRes with
      | .error e => .error e
      | .ok (esign, expDs, cs4) =>
        let mantissa : Int :=
          (if neg then -1 else 1) * (digitsVal ip * 10 ^ fracDs.length + digitsVal fracDs)
        if fracDs.isEmpty ∧ expDs.isEmpty then
          .ok (.num (mantissa : Rat), cs4)
        else
          let base : Rat := (mantissa : Rat) / ((10 : Rat) ^ fracDs.length)
          let e := digitsVal expDs
          let q : Rat := if esign then base / ((10 : Rat) ^ e) else base * ((10 : Rat) ^ e)
          .ok (.num q, cs4)

/-- Parse the remainder of a JSON string literal (the opening quote already
consumed), handling the standard escapes. Fuel-based recursion. -/
def parseStringLit : Nat → List Char → List Char → Except String (String × List Char)
  | 0, _, _ => .error "Out of fuel"
  | _ + 1, [], _ => .error "Unterminated string"
  | f + 1, c :: cs, acc =>
    if c = '"' then .ok (String.mk acc.reverse, cs)
    else if c = '\\' then
      match cs with
      | [] => .error "Unterminated string"
      | e :: cs2 =>
        if e = '"' then parseStringLit f cs2 ('"' :: acc)
        else if e = '\\' then parseStringLit f cs2 ('\\' :: acc)
        else if e = '/' then parseStringLit f cs2 ('/' :: acc)
        else if e = 'n' then parseStringLit f cs2 ('\n' :: acc)
        else if e = 't' then parseStringLit f cs2 ('\t' :: acc)
        else if e = 'r' then parseStringLit f cs2 ('\r' :: acc)
        else if e = 'b' then parseStringLit f cs2 ('\x08' :: acc)
        else if e = 'f' then parseStringLit f cs2 ('\x0c' :: acc)
        else if e = 'u' then
          match cs2 with
          | h1 :: h2 :: h3 :: h4 :: cs3 =>
            match hexDigitVal h1, hexDigitVal h2, hexDigitVal h3, hexDigitVal h4 with
            | some a, some b, some c3, some d =>
              parseStringLit f cs3 (Char.ofNat (((a * 16 + b) * 16 + c3) * 16 + d) :: acc)
            | _, _, _, _ => .error "Invalid hex escape"
          | _ => .error "Invalid hex escape"
        else .error "Invalid escape"
    else parseStringLit f cs (c :: acc)

mutual

/-- Parse one JSON value (fuel-based; fuel bounds the nesting/iteration). -/
def parseValue : Nat → List Char → Except String (JsonVal × List Char)
  | 0, _ => .error "Out of fuel"
  | _ + 1, [] => .error "Expecting value"
  | fuel + 1, c :: cs =>
    if c = 'n' then
      match cs with
      | 'u' :: 'l' :: 'l' :: r => .ok (.null, r)
      | _ => .error "Expecting value"
    else if c = 't' then
      match cs with
      | 'r' :: 'u' :: 'e' :: r => .ok (.bool true, r)
      | _ => .error "Expecting value"
    else if c = 'f' then
      match cs with
      | 'a' :: 'l' :: 's' :: 'e' :: r => .ok (.bool false, r)
      | _ => .error "Expecting value"
    else if c = '"' then
      match parseStringLit (cs.length + 1) cs [] with
      | .ok (s, r) => .ok (.str s, r)
      | .error e => .error e
    else if c = '[' then
      match skipWs cs with
      | ']' :: r => .ok (.arr [], r)
      | cs1 =>
        match parseArrItems fuel cs1 with
        | .ok (xs, r) => .ok (.arr xs, r)
        | .error e => .error e
    else if c = '\x7b' then
      match skipWs cs with
      | '\x7d' :: r => .ok (.obj [], r)
      | cs1 =>
        match parseObjItems fuel cs1 with
        | .ok (kvs, r) => .ok (.obj kvs, r)
        | .error e => .error e
    else if c = '-' || c.isDigit then parseNumber (c :: cs)
    else .error "Expecting value"

/-- Parse the comma-separated items of a non-empty JSON array, up to and
including the closing bracket. -/
def parseArrItems : Nat → List Char → Except String (List JsonVal × List Char)
  | 0, _ => .error "Out of fuel"
  | fuel + 1, cs =>
    match parseValue fuel (skipWs cs) with
    | .error e => .error e
    | .ok (v, r) =>
      match skipWs r with
      | ',' :: r2 =>
        match parseArrItems fuel r2 with
        | .ok (vs, r3) => .ok (v :: vs, r3)
        | .error e => .error e
      | ']' :: r2 => .ok ([v], r2)
      | _ => .error "Expecting comma or closing bracket"

/-- Parse the comma-separated members of a non-empty JSON object, up to and
including the closing brace. -/
def parseObjItems : Nat → List Char → Except String (List (String × JsonVal) × List Char)
  | 0, _ => .error "Out of fuel"
  | fuel + 1, cs =>
    match skipWs cs with
    | '"' :: r =>
      match parseStringLit (r.length + 1) r [] with
      | .error e => .error e
      | .ok (k, r1) =>
        match skipWs r1 with
        | ':' :: r2 =>
          match parseValue fuel (skipWs r2) with
          | .error e => .error e
          | .ok (v, r3) =>
            match skipWs r3 with
            | ',' :: r4 =>
              match parseObjItems fuel r4 with
              | .ok (kvs, r5) => .ok ((k, v) :: kvs, r5)
              | .error e => .error e
            | '\x7d' :: r4 => .ok ([(k, v)], r4)
            | _ => .error "Expecting comma or closing brace"
        | _ => .error "Expecting colon"
    | _ => .error "Expecting property name"

end

/-- Model of Python `json.loads` (app.py line 113): parse one JSON document,
requiring only whitespace after it. -/
def json_loads (s : String) : Except String JsonVal :=
  match parseValue (s.length + 1) (skipWs s.data) with
  | .error e => .error e
  | .ok (v, rest) => if (skipWs rest).isEmpty then .ok v else .error "Extra data"

/-- Subscripting `j[k]` with a string key, with Python semantics: works on a
dict (KeyError if absent, with `dict` duplicate-key semantics); raises
TypeError on other values (app.py line 112). -/
def pyGetItemKey (j : JsonVal) (k : String) : Except String JsonVal :=
  match j with
  | .obj kvs =>
    match lookupLast kvs k with
    | some v => .ok v
    | none => .error ("KeyError: " ++ k)
  | .arr _ => .error "TypeError: list indices must be integers or slices, not str"
  | _ => .error "TypeError: object is not subscriptable"

/-- Subscripting `j[n]` with an integer index, with Python semantics:
IndexError past the end of a list, KeyError on a dict without that key,
TypeError elsewhere (app.py line 112). -/
def pyGetItemIdx (j : JsonVal) (n : Nat) : Except String JsonVal :=
  match j with
  | .arr xs =>
    match xs[n]? with
    | some v => .ok v
    | none => .error "IndexError: list index out of range"
  | .obj _ => .error ("KeyError: " ++ toString n)
  | _ => .error "TypeError: object is not subscriptable"

/-- `groq_data["choices"][0]["message"]["content"]` (app.py line 112), plus the
requirement that the extracted value be a string (a non-string would make
`json.loads` raise TypeError at line 113; folded here since both raise before
any JSONDecodeError can occur and both land in the blanket handler). -/
def extractContent (groq_data : JsonVal) : Except String String := do
  let choices ← pyGetItemKey groq_data "choices"
  let c0 ← pyGetItemIdx choices 0
  let message ← pyGetItemKey c0 "message"
  let content ← pyGetItemKey message "content"
  match content with
  | .str s => pure s
  | _ => .error "TypeError: the JSON object must be str, bytes or bytearray"

/-- Fixed Groq chat-completions URL (app.py line 106). -/
def groqUrl : String := "https://api.groq.com/openai/v1/chat/completions"

/-- Message of the `requests.HTTPError` raised by `raise_for_status` (app.py
line 107) for a 4xx/5xx status, shaped after the requests library. -/
def httpErrorMsg (status : Nat) (reason : String) : String :=
  if status < 500 then
    toString status ++ " Client Error: " ++ reason ++ " for url: " ++ groqUrl
  else
    toString status ++ " Server Error: " ++ reason ++ " for url: " ++ groqUrl

/-- Constant pieces of the f-string prompt template (app.py lines 68-86),
reproduced byte for byte; the user-supplied fields are spliced between them. -/
def promptPre : String :=
  "\n        You are a helpful AI assistant for a dog product company. Your goal is to provide a personalized product recommendation and a relevant insight based on the dog\x27s profile.\n\n        Dog Breed: "

/-- Template piece between `dog_breed` and `diet_preference`. -/
def promptMid1 : String := "\n        Dietary Preference: "

/-- Template piece between `diet_preference` and `product_type`. -/
def promptMid2 : String := "\n        Desired Product Type: "

/-- Template piece after `product_type`, through the closing triple quote. -/
def promptPost : String :=
  "\n\n        Please provide:\n        1. A specific product recommendation.\n        2. An insight related to cost-benefit or community behavior for this product/dog type.\n\n        Format your response strictly as a JSON object with two keys: \"recommendation\" and \"insight\".\n        Example:\n        \x7b\n          \"recommendation\": \"XYZ Brand Organic Chicken Dog Food\",\n          \"insight\": \"80% of Golden Retriever owners prefer large bags for cost savings.\"\n        \x7d\n        Ensure the recommendation is plausible for the given inputs and the insight is creative and relevant.\n        "

/-- The rendered prompt (app.py lines 68-86): the three field values embedded
verbatim between the fixed template pieces. -/
def promptTemplate (dog_breed diet_preference product_type : String) : String :=
  promptPre ++ dog_breed ++ promptMid1 ++ diet_preference ++ promptMid2 ++
    product_type ++ promptPost

/-- One message of the completion payload (app.py lines 95-100). -/
structure ChatMessage where
  role : String
  content : String

/-- The JSON payload of the outbound call (app.py lines 93-103). The
`response_format` dict `\x7b"type": "json_object"\x7d` is modelled by its
`type` field; `temperature` 0.7 is the exact rational 7/10. -/
structure CompletionPayload where
  model : String
  messages : List ChatMessage
  response_format_type : String
  temperature : Rat

/-- The observable outbound HTTP request (app.py lines 88-106). -/
structure OutboundCall where
  method : String
  url : String
  content_type : String
  authorization : String
  payload : CompletionPayload

/-- The outbound call the handler constructs for a given credential and
rendered prompt (app.py lines 88-106). -/
def mkCall (key prompt : String) : OutboundCall :=
  { method := "POST"
    url := groqUrl
    content_type := "application/json"
    authorization := "Bearer " ++ key
    payload :=
      { model := "llama3-8b-8192"
        messages := [{ role := "user", content := prompt }]
        response_format_type := "json_object"
        temperature := 7 / 10 } }

/-- Oracle for the single `requests.post` call: either the post itself raises
a connection-level `RequestException`, or a response arrives with a status
code, a reason phrase, and the result of `Response.json()` on its body (the
`.error` case is a body that is not valid JSON, raised by modern requests as a
`RequestException` subclass). -/
inductive Upstream where
  | connError (msg : String)
  | response (status : Nat) (reason : String) (body : Except String JsonVal)

/-- The Python exception classes distinguished by the handler's `except`
clauses (app.py lines 128-136), with `str(e)`. `fastapi.HTTPException` is an
`Exception` subclass but neither a `RequestException` nor a
`JSONDecodeError`, so it is caught by the blanket clause. -/
inductive PyExc where
  | httpException (status : Nat) (detail : String)
  | requestException (msg : String)
  | jsonDecodeError (msg : String)
  | otherError (msg : String)

/-- `str(e)` for a starlette `HTTPException`: `"{status_code}: {detail}"`. -/
def strHTTPException (status : Nat) (detail : String) : String :=
  toString status ++ ": " ++ detail

/-- The three `except` clauses (app.py lines 128-136), tried in order on the
exception class. Yields `((status, detail), log line)` of the `HTTPException`
each clause raises and the `print` line it emits. A `jsonDecodeError` log
includes the current `llm_content`. -/
def exceptClauses (llm_content : String) (e : PyExc) : (Nat × String) × String :=
  match e with
  | .requestException m =>
    ((500, "Failed to connect to recommendation service: " ++ m),
     "ERROR: Error calling Groq API: " ++ m)
  | .jsonDecodeError m =>
    ((500, "Failed to process LLM response. Invalid JSON from LLM: " ++ m),
     "ERROR: Error parsing LLM JSON response: " ++ m ++ ", Raw Content: " ++ llm_content)
  | .httpException s d =>
    ((500, "An unexpected server error occurred: " ++ strHTTPException s d),
     "ERROR: An unexpected error occurred: " ++ strHTTPException s d)
  | .otherError m =>
    ((500, "An unexpected server error occurred: " ++ m),
     "ERROR: An unexpected error occurred: " ++ m)

/-- What the `try` block (app.py lines 58-126) produces once the outbound call
has been made: either the `(recommendation, insight)` pair of the 200 return,
or the exception escaping the block; plus the value of `llm_content` at that
point and any log lines printed inside the block. -/
structure PhaseResult where
  result : Except PyExc (JsonVal × JsonVal)
  llm_content : String
  logs : List String

/-- app.py lines 106-126: `raise_for_status`, `Response.json()`, content
extraction, `json.loads`, and the key checks, for a given upstream outcome. -/
def callPhase (up : Upstream) : PhaseResult :=
  match up with
  | .connError m => ⟨.error (.requestException m), "", []⟩
  | .response status reason body =>
    if 400 ≤ status ∧ status ≤ 599 then
      ⟨.error (.requestException (httpErrorMsg status reason)), "", []⟩
    else
      match body with
      | .error m => ⟨.error (.requestException m), "", []⟩
      | .ok groq_data =>
        match extractContent groq_data with
        | .error m => ⟨.error (.otherError m), "", []⟩
        | .ok llm_content =>
          match json_loads llm_content with
          | .error m => ⟨.error (.jsonDecodeError m), llm_content, []⟩
          | .ok parsed =>
            match parsed with
            | .obj kvs =>
              -- locals `recommendation`/`insight` (app.py lines 115-116)
              -- inlined; `dict.get` returns `None` for an absent key.
              if pyTruthy ((lookupLast kvs "recommendation").getD .null) &&
                  pyTruthy ((lookupLast kvs "insight").getD .null) then
                ⟨.ok ((lookupLast kvs "recommendation").getD .null,
                      (lookupLast kvs "insight").getD .null), llm_content, []⟩
              else
                ⟨.error (.httpException 500 "Could not parse recommendation or insight from LLM response. LLM might have deviated from format."),
                 llm_content,
                 ["WARNING: LLM response missing expected keys. Content: " ++ llm_content]⟩
            | _ =>
              ⟨.error (.otherError "AttributeError: object has no attribute get"),
               llm_content, []⟩

/-- The HTTP outcome delivered to the caller: a 200 body
`\x7b"recommendation": r, "insight": i\x7d`, or the status/detail of a raised
`HTTPException`. -/
inductive HttpOutcome where
  | ok (recommendation insight : JsonVal)
  | err (status : Nat) (detail : String)

/-- Observable behaviour of one handler invocation: the HTTP outcome, the
outbound calls made, and the `print` log lines in order. -/
structure HandlerOutput where
  outcome : HttpOutcome
  calls : List OutboundCall
  logs : List String

/-- Map the `try` block's result through the `except` clauses (app.py lines
128-136) to the final outcome, appending the clause's log line. -/
def finalize (llm_content : String) (calls : List OutboundCall)
    (logs : List String) (result : Except PyExc (JsonVal × JsonVal)) : HandlerOutput :=
  match result with
  | .ok (r, i) => ⟨.ok r i, calls, logs⟩
  | .error e =>
    let sd := exceptClauses llm_content e
    ⟨.err sd.1.1 sd.1.2, calls, logs ++ [sd.2]⟩

/-- The `/get_recommendation` handler (app.py lines 49-136), as a function of
the startup credential, the request body, and the upstream oracle. Note that
the 400 validation `HTTPException` is raised inside the `try` block, so it
reaches the caller only through the blanket `except Exception` clause. -/
def get_recommendation (key : String) (req : RecommendationRequest)
    (up : Upstream) : HandlerOutput :=
  if (pystrip req.dog_breed) = "" ∨ (pystrip req.product_type) = "" then
    finalize "" [] []
      (.error (.httpException 400 "Dog breed and product type are required."))
  else
    let call := mkCall key
      (promptTemplate (pystrip req.dog_breed) req.diet_preference (pystrip req.product_type))
    let p := callPhase up
    finalize p.llm_content [call] p.logs p.result

/-- Startup credential check (app.py lines 27-30): `os.getenv` returns `None`
when the variable is absent; `if not GROQ_API_KEY` raises `ValueError` for an
absent or empty value, before any request is served. -/
def startupCheck (env : Option String) : Except String String :=
  match env with
  | none => .error "GROQ_API_KEY environment variable not set. Please create a .env file."
  | some k =>
    if k = "" then
      .error "GROQ_API_KEY environment variable not set. Please create a .env file."
    else .ok k

/-- A JSON string value (the shape the spec requires of the two result
fields). -/
def isStringVal : JsonVal → Bool
  | .str _ => true
  | _ => false

/-- Sample model content echoing the spec's concrete scenario. -/
def sampleContent : String :=
  "\x7b\"recommendation\": \"ABC Grain-Free Kibble\", \"insight\": \"60% of Labrador owners buy 30lb bags\"\x7d"

/-- Sample upstream body: one choice whose message content is
`sampleContent`. -/
def sampleGroqData : JsonVal :=
  .obj [("choices", .arr [.obj [("message", .obj [("content", .str sampleContent)])]])]

theorem finalize_calls (lc : String) (calls : List OutboundCall) (logs : List String)
    (res : Except PyExc (JsonVal × JsonVal)) : (finalize lc calls logs res).calls = calls := by
  match res with
  | .ok (r, i) => rfl
  | .error e => rfl

theorem get_recommendation_validated (key : String) (req : RecommendationRequest)
    (up : Upstream) (hdb : (pystrip req.dog_breed) ≠ "") (hpt : (pystrip req.product_type) ≠ "") :
    get_recommendation key req up =
      finalize (callPhase up).llm_content
        [mkCall key (promptTemplate (pystrip req.dog_breed) req.diet_preference (pystrip req.product_type))]
        (callPhase up).logs (callPhase up).result := by
  unfold get_recommendation
  rw [if_neg (by push_neg; exact ⟨hdb, hpt⟩)]

/-- C1: a request whose `dog_breed` is empty after trimming makes no outbound
call, but the 400 `HTTPException` raised inside the `try` block is caught by
the blanket `except Exception` clause and re-raised as a 500, so the endpoint
returns 500, not the documented 400. -/
theorem C1_validation_error_becomes_500 :
    get_recommendation "testkey" ⟨"   ", "any", "food"⟩ (.connError "unreachable") =
      ⟨.err 500 "An unexpected server error occurred: 400: Dog breed and product type are required.",
       [],
       ["ERROR: An unexpected error occurred: 400: Dog breed and product type are required."]⟩ := rfl

/-- C8: the credential check runs at startup: an absent (or empty) environment
value raises before any request is served, and a non-empty value is accepted
and becomes the per-request bearer credential. -/
theorem C8_startup_key_required :
    startupCheck none =
      .error "GROQ_API_KEY environment variable not set. Please create a .env file." ∧
    startupCheck (some "") =
      .error "GROQ_API_KEY environment variable not set. Please create a .env file." ∧
    startupCheck (some "gsk-test") = .ok "gsk-test" :=
  ⟨rfl, rfl, rfl⟩

/-- C9: every validated request produces exactly one outbound call: a
bearer-authenticated POST to the fixed chat-completions URL whose JSON body
holds the fixed model identifier, exactly one user-role message with the
rendered prompt, the json_object response-format hint, and temperature 0.7. -/
theorem C9_outbound_request_shape (key : String) (req : RecommendationRequest)
    (up : Upstream) (hdb : (pystrip req.dog_breed) ≠ "") (hpt : (pystrip req.product_type) ≠ "") :
    (get_recommendation key req up).calls =
      [{ method := "POST"
         url := "https://api.groq.com/openai/v1/chat/completions"
         content_type := "application/json"
         authorization := "Bearer " ++ key
         payload :=
           { model := "llama3-8b-8192"
             messages := [{ role := "user"
                            content := promptTemplate (pystrip req.dog_breed) req.diet_preference
                              (pystrip req.product_type) }]
             response_format_type := "json_object"
             temperature := 7 / 10 } }] := by
  rw [get_recommendation_validated key req up hdb hpt, finalize_calls]
  rfl

/-- Witness for C9 at a concrete request. -/
theorem C9_outbound_request_shape_witness :
    (get_recommendation "gsk" ⟨"Labrador", "grain-free", "food"⟩
        (.connError "down")).calls =
      [{ method := "POST"
         url := "https://api.groq.com/openai/v1/chat/completions"
         content_type := "application/json"
         authorization := "Bearer " ++ "gsk"
         payload :=
           { model := "llama3-8b-8192"
             messages := [{ role := "user"
                            content := promptTemplate "Labrador" "grain-free" "food" }]
             response_format_type := "json_object"
             temperature := 7 / 10 } }] := by
  have h := C9_outbound_request_shape "gsk" ⟨"Labrador", "grain-free", "food"⟩
    (.connError "down") (by decide) (by decide)
  simpa using h

/-- C7 (amended): every validated request makes exactly one outbound call,
whose prompt embeds the trimmed `dog_breed`, the untrimmed `diet_preference`,
and the trimmed `product_type` verbatim between the fixed template pieces. -/
theorem C7_single_call_embeds_fields (key : String) (req : RecommendationRequest)
    (up : Upstream) (hdb : (pystrip req.dog_breed) ≠ "") (hpt : (pystrip req.product_type) ≠ "") :
    ∃ c, (get_recommendation key req up).calls = [c] ∧
      c.method = "POST" ∧ c.url = groqUrl ∧
      ∃ p1 p2 p3 p4,
        c.payload.messages =
          [{ role := "user"
             content := p1 ++ (pystrip req.dog_breed) ++ p2 ++ req.diet_preference ++ p3 ++
               (pystrip req.product_type) ++ p4 }] := by
  refine ⟨mkCall key
    (promptTemplate (pystrip req.dog_breed) req.diet_preference (pystrip req.product_type)),
    ?_, rfl, rfl, promptPre, promptMid1, promptMid2, promptPost, rfl⟩
  rw [get_recommendation_validated key req up hdb hpt, finalize_calls]

/-- Witness for C7 (amended) at a concrete request. -/
theorem C7_single_call_embeds_fields_witness :
    ∃ c, (get_recommendation "gsk" ⟨"Labrador", " grain-free ", "food"⟩
        (.connError "down")).calls = [c] ∧
      c.method = "POST" ∧ c.url = groqUrl ∧
      ∃ p1 p2 p3 p4,
        c.payload.messages =
          [{ role := "user"
             content := p1 ++ pystrip "Labrador" ++ p2 ++ " grain-free " ++ p3 ++
               pystrip "food" ++ p4 }] :=
  C7_single_call_embeds_fields "gsk" ⟨"Labrador", " grain-free ", "food"⟩
    (.connError "down") (by decide) (by decide)

set_option maxRecDepth 8192 in
/-- C7 counterexample: `diet_preference` is not trimmed. For the request with
`diet_preference` `" grain-free "`, the value passed onward into the prompt is
the untrimmed string, and the resulting prompt differs from the one the claim
(a fully trimmed triple) would produce. -/
theorem C7_untrimmed_diet_counterexample :
    (get_recommendation "gsk" ⟨"Labrador", " grain-free ", "food"⟩
        (.connError "down")).calls =
      [mkCall "gsk" (promptTemplate "Labrador" " grain-free " "food")] ∧
    promptTemplate "Labrador" " grain-free " "food" ≠
      promptTemplate "Labrador" (pystrip " grain-free ") "food" := by
  constructor
  · rfl
  · intro h
    exact absurd (congrArg String.length h) (by decide)

/-- C2: for a validated request whose 2xx upstream content parses as a JSON
object carrying `recommendation` and `insight` as non-empty strings, the
endpoint returns 200 with exactly those two values, unmodified. -/
theorem C2_success_passthrough
    (key : String) (req : RecommendationRequest) (status : Nat) (reason : String)
    (data : JsonVal) (content rec ins : String) (kvs : List (String × JsonVal))
    (hdb : pystrip req.dog_breed ≠ "") (hpt : pystrip req.product_type ≠ "")
    (h2a : 200 ≤ status) (h2b : status ≤ 299)
    (hext : extractContent data = .ok content)
    (hparse : json_loads content = .ok (.obj kvs))
    (hrec : lookupLast kvs "recommendation" = some (.str rec)) (hrne : rec ≠ "")
    (hins : lookupLast kvs "insight" = some (.str ins)) (hine : ins ≠ "") :
    (get_recommendation key req (.response status reason (.ok data))).outcome =
      .ok (.str rec) (.str ins) := by
  rw [get_recommendation_validated key req _ hdb hpt]
  have hst : ¬(400 ≤ status ∧ status ≤ 599) := by omega
  have hcp : callPhase (.response status reason (.ok data)) =
      ⟨.ok (.str rec, .str ins), content, []⟩ := by
    simp [callPhase, hst, hext, hparse, hrec, hins, pyTruthy, hrne, hine]
  rw [hcp]
  rfl

/-- Witness for C2 at the spec's concrete scenario. -/
theorem C2_success_passthrough_witness :
    (get_recommendation "gsk" ⟨"Labrador", "grain-free", "food"⟩
        (.response 200 "OK" (.ok sampleGroqData))).outcome =
      .ok (.str "ABC Grain-Free Kibble") (.str "60% of Labrador owners buy 30lb bags") :=
  C2_success_passthrough "gsk" ⟨"Labrador", "grain-free", "food"⟩ 200 "OK"
    sampleGroqData sampleContent "ABC Grain-Free Kibble" "60% of Labrador owners buy 30lb bags"
    [("recommendation", .str "ABC Grain-Free Kibble"),
     ("insight", .str "60% of Labrador owners buy 30lb bags")]
    (by decide) (by decide) (by decide) (by decide) rfl rfl rfl (by decide) rfl (by decide)

/-- C4 (amended): for a validated request whose upstream response has a
client- or server-error status (4xx/5xx, the statuses `raise_for_status`
raises for), the endpoint returns 500 with a message referencing the
connection/transport failure and carrying the underlying `HTTPError` text,
and exactly one outbound call is made (no retry). -/
theorem C4_error_status_500
    (key : String) (req : RecommendationRequest) (status : Nat) (reason : String)
    (body : Except String JsonVal)
    (hdb : pystrip req.dog_breed ≠ "") (hpt : pystrip req.product_type ≠ "")
    (h4 : 400 ≤ status) (h5 : status ≤ 599) :
    (get_recommendation key req (.response status reason body)).outcome =
      .err 500 ("Failed to connect to recommendation service: " ++ httpErrorMsg status reason) ∧
    (get_recommendation key req (.response status reason body)).calls.length = 1 := by
  rw [get_recommendation_validated key req _ hdb hpt]
  have hcp : callPhase (.response status reason body) =
      ⟨.error (.requestException (httpErrorMsg status reason)), "", []⟩ := by
    simp [callPhase, h4, h5]
  rw [hcp]
  exact ⟨rfl, rfl⟩

/-- Witness for C4 (amended) at a concrete 404 response. -/
theorem C4_error_status_500_witness :
    (get_recommendation "gsk" ⟨"Labrador", "grain-free", "food"⟩
        (.response 404 "Not Found" (.ok (.obj [])))).outcome =
      .err 500 ("Failed to connect to recommendation service: " ++ httpErrorMsg 404 "Not Found") ∧
    (get_recommendation "gsk" ⟨"Labrador", "grain-free", "food"⟩
        (.response 404 "Not Found" (.ok (.obj [])))).calls.length = 1 :=
  C4_error_status_500 "gsk" ⟨"Labrador", "grain-free", "food"⟩ 404 "Not Found"
    (.ok (.obj [])) (by decide) (by decide) (by decide) (by decide)

/-- C4 counterexample: the claim quantifies over every non-2xx transport
status, but `raise_for_status` only raises for 4xx/5xx. A 300 response whose
body carries a well-formed completion sails through and yields a 200 success,
not a 500 transport error. -/
theorem C4_non2xx_counterexample :
    (get_recommendation "gsk" ⟨"Labrador", "grain-free", "food"⟩
        (.response 300 "Multiple Choices" (.ok sampleGroqData))).outcome =
      .ok (.str "ABC Grain-Free Kibble") (.str "60% of Labrador owners buy 30lb bags") := rfl

/-- C5: for a validated request whose 2xx upstream content fails JSON parsing,
the `json.JSONDecodeError` clause yields a 500 whose detail references invalid
JSON from the LLM and carries the parser's diagnostic. -/
theorem C5_invalid_json_500
    (key : String) (req : RecommendationRequest) (status : Nat) (reason : String)
    (data : JsonVal) (content m : String)
    (hdb : pystrip req.dog_breed ≠ "") (hpt : pystrip req.product_type ≠ "")
    (h2a : 200 ≤ status) (h2b : status ≤ 299)
    (hext : extractContent data = .ok content)
    (hparse : json_loads content = .error m) :
    (get_recommendation key req (.response status reason (.ok data))).outcome =
      .err 500 ("Failed to process LLM response. Invalid JSON from LLM: " ++ m) := by
  rw [get_recommendation_validated key req _ hdb hpt]
  have hst : ¬(400 ≤ status ∧ status ≤ 599) := by omega
  have hcp : callPhase (.response status reason (.ok data)) =
      ⟨.error (.jsonDecodeError m), content, []⟩ := by
    simp [callPhase, hst, hext, hparse]
  rw [hcp]
  rfl

/-- Witness for C5 with content that is not JSON. -/
theorem C5_invalid_json_500_witness :
    (get_recommendation "gsk" ⟨"Labrador", "grain-free", "food"⟩
        (.response 200 "OK" (.ok (.obj [("choices", .arr [.obj [("message", .obj [("content",
          .str "not json")])]])])))).outcome =
      .err 500 ("Failed to process LLM response. Invalid JSON from LLM: " ++ "Expecting value") :=
  C5_invalid_json_500 "gsk" ⟨"Labrador", "grain-free", "food"⟩ 200 "OK"
    (.obj [("choices", .arr [.obj [("message", .obj [("content", .str "not json")])]])])
    "not json" "Expecting value"
    (by decide) (by decide) (by decide) (by decide) rfl rfl

/-- C6: for a validated request whose 2xx upstream content parses as JSON but
where `recommendation` or `insight` is missing or falsy, the endpoint returns
500 with a detail referencing the format deviation (wrapped by the blanket
clause, which catches the inner 500 `HTTPException`), and a warning line
containing the full raw content is logged. -/
theorem C6_missing_keys_500_logged
    (key : String) (req : RecommendationRequest) (status : Nat) (reason : String)
    (data : JsonVal) (content : String) (kvs : List (String × JsonVal))
    (hdb : pystrip req.dog_breed ≠ "") (hpt : pystrip req.product_type ≠ "")
    (h2a : 200 ≤ status) (h2b : status ≤ 299)
    (hext : extractContent data = .ok content)
    (hparse : json_loads content = .ok (.obj kvs))
    (hfal : (pyTruthy ((lookupLast kvs "recommendation").getD .null) &&
             pyTruthy ((lookupLast kvs "insight").getD .null)) = false) :
    (get_recommendation key req (.response status reason (.ok data))).outcome =
      .err 500 "An unexpected server error occurred: 500: Could not parse recommendation or insight from LLM response. LLM might have deviated from format." ∧
    ("WARNING: LLM response missing expected keys. Content: " ++ content) ∈
      (get_recommendation key req (.response status reason (.ok data))).logs := by
  rw [get_recommendation_validated key req _ hdb hpt]
  have hst : ¬(400 ≤ status ∧ status ≤ 599) := by omega
  have hcp : callPhase (.response status reason (.ok data)) =
      ⟨.error (.httpException 500 "Could not parse recommendation or insight from LLM response. LLM might have deviated from format."),
       content,
       ["WARNING: LLM response missing expected keys. Content: " ++ content]⟩ := by
    simp [callPhase, hst, hext, hparse, hfal]
  rw [hcp]
  exact ⟨rfl, by simp [finalize]⟩

/-- Witness for C6 with content lacking the `insight` key. -/
theorem C6_missing_keys_500_logged_witness :
    (get_recommendation "gsk" ⟨"Labrador", "grain-free", "food"⟩
        (.response 200 "OK" (.ok (.obj [("choices", .arr [.obj [("message", .obj [("content",
          .str "\x7b\"recommendation\": \"A\"\x7d")])]])])))).outcome =
      .err 500 "An unexpected server error occurred: 500: Could not parse recommendation or insight from LLM response. LLM might have deviated from format." ∧
    ("WARNING: LLM response missing expected keys. Content: " ++
        "\x7b\"recommendation\": \"A\"\x7d") ∈
      (get_recommendation "gsk" ⟨"Labrador", "grain-free", "food"⟩
        (.response 200 "OK" (.ok (.obj [("choices", .arr [.obj [("message", .obj [("content",
          .str "\x7b\"recommendation\": \"A\"\x7d")])]])])))).logs :=
  C6_missing_keys_500_logged "gsk" ⟨"Labrador", "grain-free", "food"⟩ 200 "OK"
    (.obj [("choices", .arr [.obj [("message", .obj [("content",
      .str "\x7b\"recommendation\": \"A\"\x7d")])]])])
    "\x7b\"recommendation\": \"A\"\x7d" [("recommendation", .str "A")]
    (by decide) (by decide) (by decide) (by decide) rfl rfl rfl

/-- C10: for a validated request whose 2xx response body parses as JSON but
lacks the `choices[0].message.content` structure, the raised lookup error is
caught by the blanket `except Exception` clause: the endpoint still returns a
500 (no unhandled exception), with the generic detail and log line. -/
theorem C10_missing_structure_catch_all
    (key : String) (req : RecommendationRequest) (status : Nat) (reason : String)
    (data : JsonVal) (m : String)
    (hdb : pystrip req.dog_breed ≠ "") (hpt : pystrip req.product_type ≠ "")
    (h2a : 200 ≤ status) (h2b : status ≤ 299)
    (hext : extractContent data = .error m) :
    (get_recommendation key req (.response status reason (.ok data))).outcome =
      .err 500 ("An unexpected server error occurred: " ++ m) ∧
    (get_recommendation key req (.response status reason (.ok data))).logs =
      ["ERROR: An unexpected error occurred: " ++ m] := by
  rw [get_recommendation_validated key req _ hdb hpt]
  have hst : ¬(400 ≤ status ∧ status ≤ 599) := by omega
  have hcp : callPhase (.response status reason (.ok data)) =
      ⟨.error (.otherError m), "", []⟩ := by
    simp [callPhase, hst, hext]
  rw [hcp]
  exact ⟨rfl, rfl⟩

/-- Witness for C10 with an empty `choices` list. -/
theorem C10_missing_structure_catch_all_witness :
    (get_recommendation "gsk" ⟨"Labrador", "grain-free", "food"⟩
        (.response 200 "OK" (.ok (.obj [("choices", .arr [])])))).outcome =
      .err 500 ("An unexpected server error occurred: " ++ "IndexError: list index out of range") ∧
    (get_recommendation "gsk" ⟨"Labrador", "grain-free", "food"⟩
        (.response 200 "OK" (.ok (.obj [("choices", .arr [])])))).logs =
      ["ERROR: An unexpected error occurred: " ++ "IndexError: list index out of range"] :=
  C10_missing_structure_catch_all "gsk" ⟨"Labrador", "grain-free", "food"⟩ 200 "OK"
    (.obj [("choices", .arr [])]) "IndexError: list index out of range"
    (by decide) (by decide) (by decide) (by decide) rfl

theorem finalize_ok_inv (lc : String) (calls : List OutboundCall) (logs : List String)
    (res : Except PyExc (JsonVal × JsonVal)) (r i : JsonVal)
    (h : (finalize lc calls logs res).outcome = .ok r i) : res = .ok (r, i) := by
  match res with
  | .ok (a, b) =>
    simp only [finalize, HttpOutcome.ok.injEq] at h
    rw [h.1, h.2]
  | .error e => simp [finalize] at h

theorem callPhase_ok_inv (up : Upstream) (r i : JsonVal)
    (h : (callPhase up).result = .ok (r, i)) :
    pyTruthy r = true ∧ pyTruthy i = true ∧
    ∃ status reason data content kvs,
      up = .response status reason (.ok data) ∧
      extractContent data = .ok content ∧
      json_loads content = .ok (.obj kvs) ∧
      (lookupLast kvs "recommendation").getD .null = r ∧
      (lookupLast kvs "insight").getD .null = i := by
  match up with
  | .connError m => simp [callPhase] at h
  | .response status reason body =>
    simp only [callPhase] at h
    split at h
    · simp at h
    · cases body with
      | error m => simp at h
      | ok data =>
        rcases hext : extractContent data with m | content
        all_goals simp only [hext] at h
        · simp at h
        · rcases hparse : json_loads content with m | parsed
          all_goals simp only [hparse] at h
          · simp at h
          · cases parsed with
            | obj kvs =>
              dsimp only [] at h
              split at h
              next htr =>
                rw [Bool.and_eq_true] at htr
                simp only [Except.ok.injEq, Prod.mk.injEq] at h
                exact ⟨h.1 ▸ htr.1, h.2 ▸ htr.2, status, reason, data, content, kvs,
                  rfl, hext, hparse, h.1, h.2⟩
              next htr => simp at h
            | null => simp at h
            | bool b => simp at h
            | num q => simp at h
            | str s => simp at h
            | arr xs => simp at h

/-- C3 (amended): a 200 success body is returned only when both values are
truthy JSON values read from a successfully parsed JSON object in the
upstream content — an absent, null, or otherwise falsy field can never yield
a (partial) success. The code does not, however, require the values to be
strings. -/
theorem C3_success_inversion (key : String) (req : RecommendationRequest)
    (up : Upstream) (r i : JsonVal)
    (h : (get_recommendation key req up).outcome = .ok r i) :
    pyTruthy r = true ∧ pyTruthy i = true ∧
    ∃ status reason data content kvs,
      up = .response status reason (.ok data) ∧
      extractContent data = .ok content ∧
      json_loads content = .ok (.obj kvs) ∧
      (lookupLast kvs "recommendation").getD .null = r ∧
      (lookupLast kvs "insight").getD .null = i := by
  unfold get_recommendation at h
  split at h
  · simp [finalize, exceptClauses] at h
  · exact callPhase_ok_inv up r i (finalize_ok_inv _ _ _ _ r i h)

/-- Witness for C3 (amended), applied at the concrete success scenario. -/
theorem C3_success_inversion_witness :
    pyTruthy (.str "ABC Grain-Free Kibble") = true ∧
    pyTruthy (.str "60% of Labrador owners buy 30lb bags") = true ∧
    ∃ status reason data content kvs,
      (Upstream.response 200 "OK" (.ok sampleGroqData)) = .response status reason (.ok data) ∧
      extractContent data = .ok content ∧
      json_loads content = .ok (.obj kvs) ∧
      (lookupLast kvs "recommendation").getD .null = .str "ABC Grain-Free Kibble" ∧
      (lookupLast kvs "insight").getD .null = .str "60% of Labrador owners buy 30lb bags" :=
  C3_success_inversion "gsk" ⟨"Labrador", "grain-free", "food"⟩
    (.response 200 "OK" (.ok sampleGroqData))
    (.str "ABC Grain-Free Kibble") (.str "60% of Labrador owners buy 30lb bags") rfl

/-- C3 counterexample: the claim requires the two success values to be
non-null *strings*, but the code only checks truthiness. Content whose two
keys hold the numbers 1 and 2 is returned as a 200 success even though
neither value is a string. -/
theorem C3_nonstring_success_counterexample :
    (get_recommendation "gsk" ⟨"Labrador", "grain-free", "food"⟩
        (.response 200 "OK" (.ok (.obj [("choices", .arr [.obj [("message", .obj [("content",
          .str "\x7b\"recommendation\": 1, \"insight\": 2\x7d")])]])])))).outcome =
      .ok (.num 1) (.num 2) ∧
    isStringVal (.num 1) = false ∧ isStringVal (.num 2) = false :=
  ⟨rfl, rfl, rfl⟩
